import Mathlib

/-!
Verification of the procurement platform backend (src/server.js).

The file shallowly embeds the SQLite-backed data model, the eight Express
route handlers, and the Express middleware stack (in registration order,
which matters for error propagation). Handlers are pure state transitions
on a DB value; the bcrypt primitive is an external library and is modelled
by its documented contract (randomized per-call salt, verification succeeds
exactly on the original plaintext).
-/

namespace Pbackend

/-- JSON values, as produced by the route handlers via res.json. -/
inductive Json where
  | str : String → Json
  | num : Int → Json
  | arr : List Json → Json
  | obj : List (String × Json) → Json

/-- A response body: JSON from res.json, or HTML text as sent by the
framework default handlers (finalhandler). -/
inductive Body where
  | json : Json → Body
  | html : String → Body

/-- An HTTP response: status code and body. -/
structure Response where
  status : Nat
  body : Body

/-- Model of a bcrypt hash: bcrypt.hash(password, 10) embeds the plaintext
into a salted digest. The salt models the randomness of the per-call salt;
it is supplied explicitly by the caller in this embedding.
Modelled from the documented contract of the external bcrypt library. -/
structure HashedPassword where
  plaintext : String
  salt : Nat
deriving DecidableEq

/-- bcrypt.hash(password, 10) with an explicit salt standing for the
randomized salt. -/
def bcryptHash (password : String) (salt : Nat) : HashedPassword :=
  ⟨password, salt⟩

/-- The TEXT representation stored in the users.password column:
a bcrypt digest string, never equal to the plaintext. -/
def hashToString (h : HashedPassword) : String :=
  "$2b$10$" ++ toString h.salt ++ "$" ++ h.plaintext

/-- bcrypt.compare(password, hash): true exactly when the password is the
plaintext the hash was produced from. -/
def bcryptCompare (password : String) (h : HashedPassword) : Bool :=
  password == h.plaintext

/-- A row of the users table (id INTEGER PRIMARY KEY AUTOINCREMENT,
name TEXT, email TEXT UNIQUE, password TEXT). -/
structure User where
  id : Nat
  name : String
  email : String
  password : HashedPassword
deriving DecidableEq

/-- A row of the suppliers table. -/
structure Supplier where
  id : Nat
  name : String
  registrationNumber : String
  address : String
deriving DecidableEq

/-- A row of the rfps table; createdAt is the CURRENT_TIMESTAMP default. -/
structure Rfp where
  id : Nat
  title : String
  description : String
  createdAt : Nat
deriving DecidableEq

/-- A row of the bids table. rfpId and supplierId are whatever integers the
client supplied; the declared FOREIGN KEYs are not enforced because the
connection never enables the foreign_keys pragma. -/
structure Bid where
  id : Nat
  rfpId : Int
  supplierId : Int
  amount : Int
  documents : String
  status : String
  createdAt : Nat
deriving DecidableEq

/-- The SQLite database state: the four tables in insertion (scan) order,
the AUTOINCREMENT counter of each table, and the clock used for
CURRENT_TIMESTAMP defaults. -/
structure DB where
  users : List User
  suppliers : List Supplier
  rfps : List Rfp
  bids : List Bid
  nextUserId : Nat
  nextSupplierId : Nat
  nextRfpId : Nat
  nextBidId : Nat
  now : Nat
deriving DecidableEq

/-- The freshly initialized database (initDb): empty tables, AUTOINCREMENT
counters starting at 1. -/
def emptyDB : DB :=
  ⟨[], [], [], [], 1, 1, 1, 1, 0⟩

/-- A storage failure as rejected by dbRun/dbGet/dbAll (an Error object;
only its message is observable through the error paths). -/
structure DbError where
  message : String
deriving DecidableEq

/-- The SQLITE_CONSTRAINT error raised on a duplicate users.email. -/
def uniqueUsersEmail : DbError :=
  ⟨"SQLITE_CONSTRAINT: UNIQUE constraint failed: users.email"⟩

/-- The SQLITE_CONSTRAINT error raised on a duplicate
suppliers.registrationNumber. -/
def uniqueSuppliersReg : DbError :=
  ⟨"SQLITE_CONSTRAINT: UNIQUE constraint failed: suppliers.registrationNumber"⟩

/-- The parsed requests the API accepts, one constructor per route. The
salt argument of register stands for the bcrypt salt randomness. -/
inductive Req where
  | register (name email password : String) (salt : Nat)
  | login (email password : String)
  | onboard (name registrationNumber address : String)
  | submitBid (rfpId supplierId : Int) (amount : Int) (documents : String)
  | evaluate (rfpId : Int)
  | listRfps
  | createRfp (title description : String)
  | winning (rfpId : Int)

/-- The outcome of a route handler: a response sent via res, or an error
forwarded to the next error-handling layer via next(error). -/
inductive HandlerResult where
  | respond : Response → DB → HandlerResult
  | nextErr : DbError → DB → HandlerResult

/-- Serialization of a bid row as returned by SELECT * on bids. -/
def bidToJson (b : Bid) : Json :=
  .obj [("id", .num b.id), ("rfpId", .num b.rfpId),
    ("supplierId", .num b.supplierId), ("amount", .num b.amount),
    ("documents", .str b.documents), ("status", .str b.status),
    ("createdAt", .num b.createdAt)]

/-- Serialization of an rfp row as returned by SELECT * on rfps. -/
def rfpToJson (r : Rfp) : Json :=
  .obj [("id", .num r.id), ("title", .str r.title),
    ("description", .str r.description), ("createdAt", .num r.createdAt)]

/-- POST /api/auth/register (src/server.js lines 97 to 107): hash the
password, INSERT INTO users; the UNIQUE constraint on email rejects a
duplicate, which the catch forwards via next(error). -/
def registerHandler (db : DB) (name email password : String) (salt : Nat) :
    HandlerResult :=
  let hashedPassword := bcryptHash password salt
  if db.users.any (fun u => u.email == email) then
    .nextErr uniqueUsersEmail db
  else
    .respond
      ⟨201, .json (.obj [("message", .str "User registered successfully"),
        ("userId", .num db.nextUserId)])⟩
      { db with
        users := db.users ++ [⟨db.nextUserId, name, email, hashedPassword⟩],
        nextUserId := db.nextUserId + 1 }

/-- POST /api/auth/login (src/server.js lines 110 to 128): fetch the first
users row with the given email; absent row or failed bcrypt.compare both
yield 401 with the same body; success yields 200 with the user id. -/
def loginHandler (db : DB) (email password : String) : HandlerResult :=
  match db.users.find? (fun u => u.email == email) with
  | none =>
    .respond ⟨401, .json (.obj [("message", .str "Invalid credentials")])⟩ db
  | some user =>
    if bcryptCompare password user.password then
      .respond ⟨200, .json (.obj [("message", .str "Login successful"),
        ("userId", .num user.id)])⟩ db
    else
      .respond ⟨401, .json (.obj [("message", .str "Invalid credentials")])⟩ db

/-- POST /api/suppliers/onboard (src/server.js lines 131 to 141). -/
def onboardHandler (db : DB) (name registrationNumber address : String) :
    HandlerResult :=
  if db.suppliers.any (fun s => s.registrationNumber == registrationNumber) then
    .nextErr uniqueSuppliersReg db
  else
    .respond
      ⟨201, .json (.obj [("message", .str "Supplier onboarded successfully"),
        ("supplierId", .num db.nextSupplierId)])⟩
      { db with
        suppliers := db.suppliers ++
          [⟨db.nextSupplierId, name, registrationNumber, address⟩],
        nextSupplierId := db.nextSupplierId + 1 }

/-- POST /api/bids (src/server.js lines 144 to 154): INSERT INTO bids with
default status pending; no existence check on rfpId or supplierId, and the
FOREIGN KEYs are not enforced (foreign_keys pragma never set on the
connection opened at lines 11 to 18). -/
def submitBidHandler (db : DB) (rfpId supplierId : Int) (amount : Int)
    (documents : String) : HandlerResult :=
  .respond
    ⟨201, .json (.obj [("message", .str "Bid submitted successfully"),
      ("bidId", .num db.nextBidId)])⟩
    { db with
      bids := db.bids ++
        [⟨db.nextBidId, rfpId, supplierId, amount, documents, "pending", db.now⟩],
      nextBidId := db.nextBidId + 1 }

/-- The per-row effect of UPDATE bids SET status = evaluated
WHERE rfpId = ?: rows of the RFP get the new status, all other rows and
all other columns are untouched. -/
def evaluateBidUpdate (rfpId : Int) (b : Bid) : Bid :=
  if b.rfpId == rfpId then { b with status := "evaluated" } else b

/-- POST /api/bids/evaluate (src/server.js lines 157 to 167): SELECT all
bids of the RFP (only their count is used), then UPDATE bids SET
status = evaluated WHERE rfpId matches. -/
def evaluateHandler (db : DB) (rfpId : Int) : HandlerResult :=
  let bids := db.bids.filter (fun b => b.rfpId == rfpId)
  .respond
    ⟨200, .json (.obj [("message", .str "Bids evaluated successfully"),
      ("evaluatedBidsCount", .num bids.length)])⟩
    { db with bids := db.bids.map (evaluateBidUpdate rfpId) }

/-- GET /api/rfps (src/server.js lines 170 to 177). -/
def listRfpsHandler (db : DB) : HandlerResult :=
  .respond ⟨200, .json (.arr (db.rfps.map rfpToJson))⟩ db

/-- POST /api/rfps (src/server.js lines 180 to 189). -/
def createRfpHandler (db : DB) (title description : String) : HandlerResult :=
  .respond
    ⟨201, .json (.obj [("message", .str "RFP created successfully"),
      ("rfpId", .num db.nextRfpId)])⟩
    { db with
      rfps := db.rfps ++ [⟨db.nextRfpId, title, description, db.now⟩],
      nextRfpId := db.nextRfpId + 1 }

/-- SELECT * FROM bids WHERE rfpId = ? ORDER BY amount ASC LIMIT 1, on the
already-filtered row list: the first row (in scan order) whose amount is
minimal. -/
def minAmountFirst : List Bid → Option Bid
  | [] => none
  | b :: bs =>
    match minAmountFirst bs with
    | none => some b
    | some m => if b.amount ≤ m.amount then some b else some m

/-- GET /api/bids/winning/:rfpId (src/server.js lines 192 to 204). -/
def winningBidHandler (db : DB) (rfpId : Int) : HandlerResult :=
  match minAmountFirst (db.bids.filter (fun b => b.rfpId == rfpId)) with
  | none =>
    .respond ⟨404, .json (.obj [("message", .str "No bids found for this RFP")])⟩ db
  | some winningBid =>
    .respond ⟨200, .json (.obj [("winningBid", bidToJson winningBid)])⟩ db

/-- The error-handling middleware (src/server.js lines 91 to 94): 500 with
the fixed JSON envelope of message and error description. -/
def errorHandler (e : DbError) : Response :=
  ⟨500, .json (.obj [("message", .str "Internal server error"),
    ("error", .str e.message)])⟩

/-- The Express built-in final handler for an error that reached the end of
the middleware stack: status 500 (the error carries no status of its own)
with an HTML body, not a JSON envelope. -/
def expressFinalHandler (e : DbError) : Response :=
  ⟨500, .html e.message⟩

/-- One layer of the Express middleware stack: plain middleware (cors,
bodyParser), an error-handling middleware (arity 4), or a route. A route
layer maps a request it handles to its handler, and any other request to
none. -/
inductive Layer where
  | mw : Layer
  | errMw : (DbError → Response) → Layer
  | route : (Req → Option (DB → HandlerResult)) → Layer

/-- The application stack in registration order (src/server.js lines 59 to
204): cors, bodyParser.json, then the error-handling middleware, then the
eight routes. The error middleware is registered BEFORE every route. -/
def appLayers : List Layer :=
  [.mw,
   .mw,
   .errMw errorHandler,
   .route (fun r => match r with
     | .register name email password salt =>
       some (fun db => registerHandler db name email password salt)
     | _ => none),
   .route (fun r => match r with
     | .login email password => some (fun db => loginHandler db email password)
     | _ => none),
   .route (fun r => match r with
     | .onboard name registrationNumber address =>
       some (fun db => onboardHandler db name registrationNumber address)
     | _ => none),
   .route (fun r => match r with
     | .submitBid rfpId supplierId amount documents =>
       some (fun db => submitBidHandler db rfpId supplierId amount documents)
     | _ => none),
   .route (fun r => match r with
     | .evaluate rfpId => some (fun db => evaluateHandler db rfpId)
     | _ => none),
   .route (fun r => match r with
     | .listRfps => some (fun db => listRfpsHandler db)
     | _ => none),
   .route (fun r => match r with
     | .createRfp title description =>
       some (fun db => createRfpHandler db title description)
     | _ => none),
   .route (fun r => match r with
     | .winning rfpId => some (fun db => winningBidHandler db rfpId)
     | _ => none)]

/-- Express dispatch over the remaining layers. Without a pending error,
plain middleware passes through, error middleware is skipped, and a
matching route runs; next(error) turns the pending error on, after which
only a LATER error-handling middleware can consume it. At the end of the
stack the framework default handlers respond. -/
def runStack : List Layer → Option DbError → DB → Req → Response × DB
  | [], none, db, _ => (⟨404, .html "Cannot route"⟩, db)
  | [], some e, db, _ => (expressFinalHandler e, db)
  | .mw :: rest, errSt, db, req => runStack rest errSt db req
  | .errMw h :: rest, errSt, db, req =>
    match errSt with
    | some e => (h e, db)
    | none => runStack rest none db req
  | .route m :: rest, errSt, db, req =>
    match errSt with
    | some e => runStack rest (some e) db req
    | none =>
      match m req with
      | none => runStack rest none db req
      | some k =>
        match k db with
        | .respond r db2 => (r, db2)
        | .nextErr e db2 => runStack rest (some e) db2 req

/-- Handling one request against the full application stack. -/
def app (db : DB) (req : Req) : Response × DB :=
  runStack appLayers none db req

/-- Interpreting a handler result at its position in the stack: a response
is sent as is; a forwarded error finds no error middleware among the LATER
layers (the only one is registered before the routes), so it falls through
to the framework final handler. -/
def routeOutcome (res : HandlerResult) : Response × DB :=
  match res with
  | .respond r d => (r, d)
  | .nextErr e d => (expressFinalHandler e, d)

theorem app_register (db : DB) (name email password : String) (salt : Nat) :
    app db (.register name email password salt) =
      routeOutcome (registerHandler db name email password salt) := by
  cases h : registerHandler db name email password salt with
  | respond r d => simp [app, appLayers, runStack, routeOutcome, h]
  | nextErr e d => simp [app, appLayers, runStack, routeOutcome, h]

theorem app_login (db : DB) (email password : String) :
    app db (.login email password) =
      routeOutcome (loginHandler db email password) := by
  cases h : loginHandler db email password with
  | respond r d => simp [app, appLayers, runStack, routeOutcome, h]
  | nextErr e d => simp [app, appLayers, runStack, routeOutcome, h]

theorem app_onboard (db : DB) (name registrationNumber address : String) :
    app db (.onboard name registrationNumber address) =
      routeOutcome (onboardHandler db name registrationNumber address) := by
  cases h : onboardHandler db name registrationNumber address with
  | respond r d => simp [app, appLayers, runStack, routeOutcome, h]
  | nextErr e d => simp [app, appLayers, runStack, routeOutcome, h]

theorem app_submitBid (db : DB) (rfpId supplierId : Int) (amount : Int)
    (documents : String) :
    app db (.submitBid rfpId supplierId amount documents) =
      routeOutcome (submitBidHandler db rfpId supplierId amount documents) := by
  cases h : submitBidHandler db rfpId supplierId amount documents with
  | respond r d => simp [app, appLayers, runStack, routeOutcome, h]
  | nextErr e d => simp [app, appLayers, runStack, routeOutcome, h]

theorem app_evaluate (db : DB) (rfpId : Int) :
    app db (.evaluate rfpId) = routeOutcome (evaluateHandler db rfpId) := by
  cases h : evaluateHandler db rfpId with
  | respond r d => simp [app, appLayers, runStack, routeOutcome, h]
  | nextErr e d => simp [app, appLayers, runStack, routeOutcome, h]

theorem app_winning (db : DB) (rfpId : Int) :
    app db (.winning rfpId) = routeOutcome (winningBidHandler db rfpId) := by
  cases h : winningBidHandler db rfpId with
  | respond r d => simp [app, appLayers, runStack, routeOutcome, h]
  | nextErr e d => simp [app, appLayers, runStack, routeOutcome, h]

theorem minAmountFirst_mem {l : List Bid} {b : Bid}
    (h : minAmountFirst l = some b) : b ∈ l := by
  induction l generalizing b with
  | nil => simp [minAmountFirst] at h
  | cons x xs ih =>
    rw [minAmountFirst] at h
    rcases hx : minAmountFirst xs with _ | m
    · rw [hx] at h
      simp at h
      simp [h]
    · rw [hx] at h
      by_cases hle : x.amount ≤ m.amount
      · simp [hle] at h
        simp [h]
      · simp [hle] at h
        subst h
        exact List.mem_cons_of_mem x (ih hx)

theorem minAmountFirst_eq_none {l : List Bid}
    (h : minAmountFirst l = none) : l = [] := by
  cases l with
  | nil => rfl
  | cons x xs =>
    rw [minAmountFirst] at h
    rcases hx : minAmountFirst xs with _ | m
    · rw [hx] at h
      simp at h
    · rw [hx] at h
      by_cases hle : x.amount ≤ m.amount <;> simp [hle] at h

theorem minAmountFirst_min {l : List Bid} {b : Bid}
    (h : minAmountFirst l = some b) : ∀ x ∈ l, b.amount ≤ x.amount := by
  induction l generalizing b with
  | nil => simp [minAmountFirst] at h
  | cons x xs ih =>
    intro y hy
    rw [minAmountFirst] at h
    rcases hx : minAmountFirst xs with _ | m
    · rw [hx] at h
      simp at h
      subst h
      rcases List.mem_cons.mp hy with hy | hy
      · simp [hy]
      · rw [minAmountFirst_eq_none hx] at hy
        cases hy
    · rw [hx] at h
      by_cases hle : x.amount ≤ m.amount
      · simp [hle] at h
        subst h
        rcases List.mem_cons.mp hy with hy | hy
        · simp [hy]
        · exact le_trans hle (ih hx y hy)
      · simp [hle] at h
        subst h
        rcases List.mem_cons.mp hy with hy | hy
        · subst hy
          exact le_of_not_le hle
        · exact ih hx y hy

theorem minAmountFirst_some_of_ne_nil {l : List Bid} (h : l ≠ []) :
    ∃ b, minAmountFirst l = some b := by
  cases l with
  | nil => exact absurd rfl h
  | cons x xs =>
    rw [minAmountFirst]
    rcases minAmountFirst xs with _ | m
    · exact ⟨x, rfl⟩
    · by_cases hle : x.amount ≤ m.amount <;> simp [hle]

theorem evaluateBidUpdate_id (r : Int) (b : Bid) :
    (evaluateBidUpdate r b).id = b.id := by
  unfold evaluateBidUpdate; split <;> rfl

theorem evaluateBidUpdate_rfpId (r : Int) (b : Bid) :
    (evaluateBidUpdate r b).rfpId = b.rfpId := by
  unfold evaluateBidUpdate; split <;> rfl

theorem evaluateBidUpdate_supplierId (r : Int) (b : Bid) :
    (evaluateBidUpdate r b).supplierId = b.supplierId := by
  unfold evaluateBidUpdate; split <;> rfl

theorem evaluateBidUpdate_amount (r : Int) (b : Bid) :
    (evaluateBidUpdate r b).amount = b.amount := by
  unfold evaluateBidUpdate; split <;> rfl

theorem evaluateBidUpdate_documents (r : Int) (b : Bid) :
    (evaluateBidUpdate r b).documents = b.documents := by
  unfold evaluateBidUpdate; split <;> rfl

theorem evaluateBidUpdate_createdAt (r : Int) (b : Bid) :
    (evaluateBidUpdate r b).createdAt = b.createdAt := by
  unfold evaluateBidUpdate; split <;> rfl

theorem evaluateBidUpdate_of_ne {r : Int} {b : Bid} (h : b.rfpId ≠ r) :
    evaluateBidUpdate r b = b := by
  simp [evaluateBidUpdate, h]

theorem evaluateBidUpdate_idem (r : Int) (b : Bid) :
    evaluateBidUpdate r (evaluateBidUpdate r b) = evaluateBidUpdate r b := by
  by_cases h : b.rfpId = r
  · simp [evaluateBidUpdate, h]
  · simp [evaluateBidUpdate, h]

theorem evaluateBidUpdate_comp (r : Int) :
    evaluateBidUpdate r ∘ evaluateBidUpdate r = evaluateBidUpdate r :=
  funext (fun b => evaluateBidUpdate_idem r b)

theorem evaluate_filter_comm (l : List Bid) (r : Int) :
    (l.map (evaluateBidUpdate r)).filter (fun b => b.rfpId == r) =
      (l.filter (fun b => b.rfpId == r)).map (evaluateBidUpdate r) := by
  rw [List.filter_map]
  congr 1
  apply List.filter_congr
  intro b _
  simp [Function.comp, evaluateBidUpdate_rfpId]

theorem status_evaluated_of_mem_map {l : List Bid} {r : Int} :
    ∀ b2 ∈ l.map (evaluateBidUpdate r), b2.rfpId = r →
      b2.status = "evaluated" := by
  intro b2 hb2 hr
  obtain ⟨b, hbmem, rfl⟩ := List.mem_map.mp hb2
  by_cases h : b.rfpId = r
  · simp [evaluateBidUpdate, h]
  · rw [evaluateBidUpdate_rfpId] at hr
    exact absurd hr h

theorem users_any_email_eq_false {db : DB} {email : String}
    (hfresh : ∀ u ∈ db.users, u.email ≠ email) :
    db.users.any (fun u => u.email == email) = false := by
  rw [List.any_eq_false]
  intro u hu
  simpa using hfresh u hu

/-- The three bids of the spec example: amounts 100, 50 and 75 on RFP 1. -/
def bidA : Bid := ⟨1, 1, 1, 100, "docsA", "pending", 0⟩

def bidB : Bid := ⟨2, 1, 2, 50, "docsB", "pending", 0⟩

def bidC : Bid := ⟨3, 1, 3, 75, "docsC", "pending", 0⟩

/-- A database holding exactly the three example bids. -/
def dbThreeBids : DB :=
  { emptyDB with bids := [bidA, bidB, bidC], nextBidId := 4 }

/-- A registered example user. -/
def alice : User := ⟨1, "Alice", "alice@example.com", bcryptHash "secret" 5⟩

/-- A database holding exactly the example user. -/
def dbAlice : DB := { emptyDB with users := [alice], nextUserId := 2 }

/-- C2: for every RFP that has at least one bid, GET /api/bids/winning/:rfpId
responds 200 with a bid belonging to that RFP whose amount is minimal among
all bids of that RFP, independent of the bids status. -/
theorem winningBid_returns_min (db : DB) (rfpId : Int)
    (h : db.bids.filter (fun b => b.rfpId == rfpId) ≠ []) :
    ∃ b : Bid, (app db (.winning rfpId)).1 =
        ⟨200, .json (.obj [("winningBid", bidToJson b)])⟩ ∧
      b ∈ db.bids ∧ b.rfpId = rfpId ∧
      ∀ b2 ∈ db.bids, b2.rfpId = rfpId → b.amount ≤ b2.amount := by
  obtain ⟨b, hb⟩ := minAmountFirst_some_of_ne_nil h
  have hmem := List.mem_filter.mp (minAmountFirst_mem hb)
  refine ⟨b, ?_, hmem.1, by simpa using hmem.2, ?_⟩
  · rw [app_winning]
    unfold winningBidHandler
    rw [hb]
    rfl
  · intro b2 hb2 hr2
    exact minAmountFirst_min hb b2 (List.mem_filter.mpr ⟨hb2, by simp [hr2]⟩)

/-- C2 witness: the spec example, three bids of amounts 100, 50 and 75 on
RFP 1; the winning-bid response carries the bid of amount 50. -/
theorem winningBid_returns_min_witness :
    (dbThreeBids.bids.filter (fun b => b.rfpId == (1 : Int)) ≠ []) ∧
    (∃ b : Bid, (app dbThreeBids (.winning 1)).1 =
        ⟨200, .json (.obj [("winningBid", bidToJson b)])⟩ ∧
      b ∈ dbThreeBids.bids ∧ b.rfpId = 1 ∧
      ∀ b2 ∈ dbThreeBids.bids, b2.rfpId = 1 → b.amount ≤ b2.amount) ∧
    (app dbThreeBids (.winning 1)).1 =
      ⟨200, .json (.obj [("winningBid", .obj [("id", .num 2),
        ("rfpId", .num 1), ("supplierId", .num 2), ("amount", .num 50),
        ("documents", .str "docsB"), ("status", .str "pending"),
        ("createdAt", .num 0)])])⟩ :=
  ⟨by decide, winningBid_returns_min dbThreeBids 1 (by decide), rfl⟩

/-- C6: for every RFP identifier with zero bids, GET /api/bids/winning/:rfpId
responds 404. -/
theorem winningBid_noBids_404 (db : DB) (rfpId : Int)
    (h : db.bids.filter (fun b => b.rfpId == rfpId) = []) :
    (app db (.winning rfpId)).1.status = 404 := by
  rw [app_winning]
  unfold winningBidHandler
  rw [h]
  rfl

/-- C6 witness: the empty database has no bids for RFP 7, and the
winning-bid request for it yields status 404. -/
theorem winningBid_noBids_404_witness :
    (emptyDB.bids.filter (fun b => b.rfpId == (7 : Int)) = []) ∧
    (app emptyDB (.winning 7)).1.status = 404 :=
  ⟨rfl, winningBid_noBids_404 emptyDB 7 rfl⟩

/-- C3: POST /api/bids/evaluate responds 200 with evaluatedBidsCount equal
to the number of bids of the RFP at fetch time, and afterwards every bid of
that RFP has status evaluated, regardless of amount, documents or prior
status; the number of bids of the RFP is unchanged. -/
theorem evaluate_count_and_status (db : DB) (rfpId : Int) :
    (app db (.evaluate rfpId)).1.status = 200 ∧
    (app db (.evaluate rfpId)).1.body =
      .json (.obj [("message", .str "Bids evaluated successfully"),
        ("evaluatedBidsCount",
          .num (db.bids.filter (fun b => b.rfpId == rfpId)).length)]) ∧
    (∀ b2 ∈ (app db (.evaluate rfpId)).2.bids, b2.rfpId = rfpId →
      b2.status = "evaluated") ∧
    ((app db (.evaluate rfpId)).2.bids.filter
      (fun b => b.rfpId == rfpId)).length =
      (db.bids.filter (fun b => b.rfpId == rfpId)).length := by
  rw [app_evaluate]
  unfold evaluateHandler routeOutcome
  refine ⟨rfl, rfl, ?_, ?_⟩
  · exact status_evaluated_of_mem_map
  · rw [evaluate_filter_comm, List.length_map]

/-- C3 witness: evaluating RFP 1 on the three-bid database reports count 3
and marks the three bids evaluated. -/
theorem evaluate_count_and_status_witness :
    (app dbThreeBids (.evaluate 1)).1.status = 200 ∧
    (app dbThreeBids (.evaluate 1)).1.body =
      .json (.obj [("message", .str "Bids evaluated successfully"),
        ("evaluatedBidsCount",
          .num (dbThreeBids.bids.filter (fun b => b.rfpId == (1 : Int))).length)]) ∧
    (∀ b2 ∈ (app dbThreeBids (.evaluate 1)).2.bids, b2.rfpId = 1 →
      b2.status = "evaluated") ∧
    ((app dbThreeBids (.evaluate 1)).2.bids.filter
      (fun b => b.rfpId == (1 : Int))).length =
      (dbThreeBids.bids.filter (fun b => b.rfpId == (1 : Int))).length :=
  evaluate_count_and_status dbThreeBids 1

/-- C4: evaluating the same RFP a second time, with no intervening
requests, produces the very same response (status 200 and the same
evaluatedBidsCount) and leaves the database, in particular every bid
status, unchanged. -/
theorem evaluate_idempotent (db : DB) (rfpId : Int) :
    (app (app db (.evaluate rfpId)).2 (.evaluate rfpId)).1 =
      (app db (.evaluate rfpId)).1 ∧
    (app (app db (.evaluate rfpId)).2 (.evaluate rfpId)).2 =
      (app db (.evaluate rfpId)).2 ∧
    (app (app db (.evaluate rfpId)).2 (.evaluate rfpId)).1.status = 200 := by
  refine ⟨?_, ?_, ?_⟩
  · rw [app_evaluate, app_evaluate]
    unfold evaluateHandler routeOutcome
    simp only [evaluate_filter_comm, List.length_map]
  · rw [app_evaluate, app_evaluate]
    unfold evaluateHandler routeOutcome
    simp only [List.map_map, evaluateBidUpdate_comp]
  · rw [app_evaluate, app_evaluate]
    unfold evaluateHandler routeOutcome
    rfl

/-- C4 witness: the second evaluation of RFP 1 on the three-bid database
repeats the first response and state. -/
theorem evaluate_idempotent_witness :
    (app (app dbThreeBids (.evaluate 1)).2 (.evaluate 1)).1 =
      (app dbThreeBids (.evaluate 1)).1 ∧
    (app (app dbThreeBids (.evaluate 1)).2 (.evaluate 1)).2 =
      (app dbThreeBids (.evaluate 1)).2 ∧
    (app (app dbThreeBids (.evaluate 1)).2 (.evaluate 1)).1.status = 200 :=
  evaluate_idempotent dbThreeBids 1

/-- C10: evaluation touches nothing besides the status column of the bids
of the given RFP: the users, suppliers and rfps tables are unchanged, the
bids table keeps its length, every bid keeps its id, rfpId, supplierId,
amount, documents and createdAt, and every bid of a different RFP is
entirely unchanged. -/
theorem evaluate_frame (db : DB) (rfpId : Int) :
    (app db (.evaluate rfpId)).2.users = db.users ∧
    (app db (.evaluate rfpId)).2.suppliers = db.suppliers ∧
    (app db (.evaluate rfpId)).2.rfps = db.rfps ∧
    (app db (.evaluate rfpId)).2.bids.length = db.bids.length ∧
    ∀ i : Nat, ∀ hi : i < db.bids.length,
      ∀ hi2 : i < (app db (.evaluate rfpId)).2.bids.length,
      ((app db (.evaluate rfpId)).2.bids.get ⟨i, hi2⟩).id =
        (db.bids.get ⟨i, hi⟩).id ∧
      ((app db (.evaluate rfpId)).2.bids.get ⟨i, hi2⟩).rfpId =
        (db.bids.get ⟨i, hi⟩).rfpId ∧
      ((app db (.evaluate rfpId)).2.bids.get ⟨i, hi2⟩).supplierId =
        (db.bids.get ⟨i, hi⟩).supplierId ∧
      ((app db (.evaluate rfpId)).2.bids.get ⟨i, hi2⟩).amount =
        (db.bids.get ⟨i, hi⟩).amount ∧
      ((app db (.evaluate rfpId)).2.bids.get ⟨i, hi2⟩).documents =
        (db.bids.get ⟨i, hi⟩).documents ∧
      ((app db (.evaluate rfpId)).2.bids.get ⟨i, hi2⟩).createdAt =
        (db.bids.get ⟨i, hi⟩).createdAt ∧
      ((db.bids.get ⟨i, hi⟩).rfpId ≠ rfpId →
        (app db (.evaluate rfpId)).2.bids.get ⟨i, hi2⟩ =
          db.bids.get ⟨i, hi⟩) := by
  rw [app_evaluate]
  unfold evaluateHandler routeOutcome
  refine ⟨rfl, rfl, rfl, List.length_map _ _, ?_⟩
  intro i hi hi2
  have hget : (db.bids.map (evaluateBidUpdate rfpId)).get ⟨i, hi2⟩ =
      evaluateBidUpdate rfpId (db.bids.get ⟨i, hi⟩) := by
    simp [List.getElem_map]
  rw [hget]
  exact ⟨evaluateBidUpdate_id rfpId _, evaluateBidUpdate_rfpId rfpId _,
    evaluateBidUpdate_supplierId rfpId _, evaluateBidUpdate_amount rfpId _,
    evaluateBidUpdate_documents rfpId _, evaluateBidUpdate_createdAt rfpId _,
    fun hne => evaluateBidUpdate_of_ne hne⟩

/-- C10 witness: the frame property instantiated on the three-bid database
for RFP 1. -/
theorem evaluate_frame_witness :
    (app dbThreeBids (.evaluate 1)).2.users = dbThreeBids.users ∧
    (app dbThreeBids (.evaluate 1)).2.suppliers = dbThreeBids.suppliers ∧
    (app dbThreeBids (.evaluate 1)).2.rfps = dbThreeBids.rfps ∧
    (app dbThreeBids (.evaluate 1)).2.bids.length = dbThreeBids.bids.length ∧
    ∀ i : Nat, ∀ hi : i < dbThreeBids.bids.length,
      ∀ hi2 : i < (app dbThreeBids (.evaluate 1)).2.bids.length,
      ((app dbThreeBids (.evaluate 1)).2.bids.get ⟨i, hi2⟩).id =
        (dbThreeBids.bids.get ⟨i, hi⟩).id ∧
      ((app dbThreeBids (.evaluate 1)).2.bids.get ⟨i, hi2⟩).rfpId =
        (dbThreeBids.bids.get ⟨i, hi⟩).rfpId ∧
      ((app dbThreeBids (.evaluate 1)).2.bids.get ⟨i, hi2⟩).supplierId =
        (dbThreeBids.bids.get ⟨i, hi⟩).supplierId ∧
      ((app dbThreeBids (.evaluate 1)).2.bids.get ⟨i, hi2⟩).amount =
        (dbThreeBids.bids.get ⟨i, hi⟩).amount ∧
      ((app dbThreeBids (.evaluate 1)).2.bids.get ⟨i, hi2⟩).documents =
        (dbThreeBids.bids.get ⟨i, hi⟩).documents ∧
      ((app dbThreeBids (.evaluate 1)).2.bids.get ⟨i, hi2⟩).createdAt =
        (dbThreeBids.bids.get ⟨i, hi⟩).createdAt ∧
      ((dbThreeBids.bids.get ⟨i, hi⟩).rfpId ≠ 1 →
        (app dbThreeBids (.evaluate 1)).2.bids.get ⟨i, hi2⟩ =
          dbThreeBids.bids.get ⟨i, hi⟩) :=
  evaluate_frame dbThreeBids 1

/-- C5: POST /api/auth/login responds 401 with the very same body whether
the email matches no stored user or the password fails verification
against the stored hash of the matched user, so the two failure causes are
indistinguishable to the caller; when the password verifies, it responds
200 with the identifier of the matched user. -/
theorem login_cases (db : DB) (email password : String) :
    ((db.users.find? (fun u => u.email == email) = none) →
      (app db (.login email password)).1 =
        ⟨401, .json (.obj [("message", .str "Invalid credentials")])⟩) ∧
    (∀ u : User, db.users.find? (fun u => u.email == email) = some u →
      ((bcryptCompare password u.password = false →
        (app db (.login email password)).1 =
          ⟨401, .json (.obj [("message", .str "Invalid credentials")])⟩) ∧
       (bcryptCompare password u.password = true →
        (app db (.login email password)).1 =
          ⟨200, .json (.obj [("message", .str "Login successful"),
            ("userId", .num u.id)])⟩))) := by
  refine ⟨?_, ?_⟩
  · intro h
    rw [app_login]
    unfold loginHandler routeOutcome
    rw [h]
  · intro u hu
    refine ⟨?_, ?_⟩
    · intro hc
      rw [app_login]
      unfold loginHandler routeOutcome
      rw [hu]
      simp [hc]
    · intro hc
      rw [app_login]
      unfold loginHandler routeOutcome
      rw [hu]
      simp [hc]

/-- C5 witness: against the database holding only alice (password secret),
an unknown email and a wrong password both yield the identical 401
response, and the correct credentials yield 200 with identifier 1. -/
theorem login_cases_witness :
    (dbAlice.users.find? (fun u => u.email == "bob@example.com") = none ∧
      (app dbAlice (.login "bob@example.com" "secret")).1 =
        ⟨401, .json (.obj [("message", .str "Invalid credentials")])⟩) ∧
    (dbAlice.users.find? (fun u => u.email == "alice@example.com") =
        some alice ∧
      bcryptCompare "wrong" alice.password = false ∧
      (app dbAlice (.login "alice@example.com" "wrong")).1 =
        ⟨401, .json (.obj [("message", .str "Invalid credentials")])⟩) ∧
    (bcryptCompare "secret" alice.password = true ∧
      (app dbAlice (.login "alice@example.com" "secret")).1 =
        ⟨200, .json (.obj [("message", .str "Login successful"),
          ("userId", .num 1)])⟩) :=
  ⟨⟨by decide, (login_cases dbAlice "bob@example.com" "secret").1 (by decide)⟩,
   ⟨by decide, by decide,
    ((login_cases dbAlice "alice@example.com" "wrong").2 alice
      (by decide)).1 (by decide)⟩,
   ⟨by decide,
    ((login_cases dbAlice "alice@example.com" "secret").2 alice
      (by decide)).2 (by decide)⟩⟩

/-- C7: registering a fresh email succeeds with 201 and the positive
AUTOINCREMENT identifier; an immediate second registration with the same
email fails through the generic error path (status 500) and adds no row;
distinctness of stored emails is preserved, so at most one user row exists
per email. -/
theorem register_unique_email (db : DB) (name1 email password1 : String)
    (salt1 : Nat) (name2 password2 : String) (salt2 : Nat)
    (hpos : 0 < db.nextUserId)
    (hfresh : ∀ u ∈ db.users, u.email ≠ email) :
    (app db (.register name1 email password1 salt1)).1.status = 201 ∧
    (∃ uid : Nat, 0 < uid ∧
      (app db (.register name1 email password1 salt1)).1.body =
        .json (.obj [("message", .str "User registered successfully"),
          ("userId", .num uid)])) ∧
    (app (app db (.register name1 email password1 salt1)).2
      (.register name2 email password2 salt2)).1.status = 500 ∧
    (app (app db (.register name1 email password1 salt1)).2
      (.register name2 email password2 salt2)).2.users =
      (app db (.register name1 email password1 salt1)).2.users ∧
    (List.Nodup (db.users.map (fun u => u.email)) →
      List.Nodup ((app db (.register name1 email password1 salt1)).2.users.map
        (fun u => u.email))) := by
  have hany := users_any_email_eq_false hfresh
  set newUser : User := ⟨db.nextUserId, name1, email, bcryptHash password1 salt1⟩
    with hnu
  set db1 : DB := { db with
    users := db.users ++ [newUser],
    nextUserId := db.nextUserId + 1 } with hdb1
  have hreg1 : registerHandler db name1 email password1 salt1 =
      .respond ⟨201, .json (.obj [("message", .str "User registered successfully"),
        ("userId", .num db.nextUserId)])⟩ db1 := by
    unfold registerHandler
    rw [hany]
    rfl
  have hany2 : db1.users.any (fun u => u.email == email) = true := by
    rw [List.any_eq_true]
    exact ⟨newUser, List.mem_append_right _ (List.mem_singleton.mpr rfl),
      by simp [hnu]⟩
  have hreg2 : registerHandler db1 name2 email password2 salt2 =
      .nextErr uniqueUsersEmail db1 := by
    unfold registerHandler
    rw [hany2]
    rfl
  have happ1 : app db (.register name1 email password1 salt1) =
      (⟨201, .json (.obj [("message", .str "User registered successfully"),
        ("userId", .num db.nextUserId)])⟩, db1) := by
    rw [app_register, hreg1]
    rfl
  have happ2 : app db1 (.register name2 email password2 salt2) =
      (expressFinalHandler uniqueUsersEmail, db1) := by
    rw [app_register, hreg2]
    rfl
  refine ⟨?_, ⟨db.nextUserId, hpos, ?_⟩, ?_, ?_, ?_⟩
  · rw [happ1]
  · rw [happ1]
  · rw [happ1]
    show (app db1 (.register name2 email password2 salt2)).1.status = 500
    rw [happ2]
    rfl
  · rw [happ1]
    show (app db1 (.register name2 email password2 salt2)).2.users = db1.users
    rw [happ2]
  · intro hnodup
    rw [happ1]
    show List.Nodup ((db.users ++ [newUser]).map (fun u => u.email))
    simp only [List.map_append, List.map_cons, List.map_nil]
    rw [List.nodup_append]
    refine ⟨hnodup, ?_, ?_⟩
    · simp [hnu]
    · intro x hx hx2
      simp only [hnu, List.mem_singleton] at hx2
      rw [hx2] at hx
      obtain ⟨u, hu, hue⟩ := List.mem_map.mp hx
      exact hfresh u hu hue

/-- C7 witness: registering alice on the fresh database succeeds with 201,
and the immediate duplicate registration yields status 500. -/
theorem register_unique_email_witness :
    (0 < emptyDB.nextUserId) ∧
    (∀ u ∈ emptyDB.users, u.email ≠ "alice@example.com") ∧
    (app emptyDB (.register "Alice" "alice@example.com" "pw" 3)).1.status =
      201 ∧
    (app (app emptyDB (.register "Alice" "alice@example.com" "pw" 3)).2
      (.register "Alice2" "alice@example.com" "pw2" 4)).1.status = 500 :=
  ⟨by decide, by decide,
   (register_unique_email emptyDB "Alice" "alice@example.com" "pw" 3
     "Alice2" "pw2" 4 (by decide) (by decide)).1,
   (register_unique_email emptyDB "Alice" "alice@example.com" "pw" 3
     "Alice2" "pw2" 4 (by decide) (by decide)).2.2.1⟩

/-- C8: the user row created by registration stores a password value whose
TEXT rendering is never the plaintext supplied at registration, and
bcrypt verification as used by login succeeds exactly on that original
plaintext. -/
theorem register_password_hashed (db : DB) (name email password : String)
    (salt : Nat) (hfresh : ∀ u ∈ db.users, u.email ≠ email) :
    ∃ u : User,
      u ∈ (app db (.register name email password salt)).2.users ∧
      u.email = email ∧
      hashToString u.password ≠ password ∧
      (∀ attempt : String,
        bcryptCompare attempt u.password = true ↔ attempt = password) := by
  have hany := users_any_email_eq_false hfresh
  refine ⟨⟨db.nextUserId, name, email, bcryptHash password salt⟩, ?_, rfl,
    ?_, ?_⟩
  · rw [app_register]
    unfold registerHandler routeOutcome
    simp only [hany, Bool.false_eq_true, if_false]
    exact List.mem_append_right _ (List.mem_singleton.mpr rfl)
  · intro heq
    have hlen := congrArg String.length heq
    have h7 : ("$2b$10$" : String).length = 7 := rfl
    have h1 : ("$" : String).length = 1 := rfl
    simp only [hashToString, bcryptHash, String.length_append, h7, h1]
      at hlen
    omega
  · intro attempt
    simp [bcryptCompare, bcryptHash]

/-- C8 witness: registering alice with password secret stores a value whose
rendering differs from secret, and verification accepts exactly secret. -/
theorem register_password_hashed_witness :
    (∀ u ∈ emptyDB.users, u.email ≠ "alice@example.com") ∧
    (∃ u : User,
      u ∈ (app emptyDB
        (.register "Alice" "alice@example.com" "secret" 9)).2.users ∧
      u.email = "alice@example.com" ∧
      hashToString u.password ≠ "secret" ∧
      (∀ attempt : String,
        bcryptCompare attempt u.password = true ↔ attempt = "secret")) :=
  ⟨by decide,
   register_password_hashed emptyDB "Alice" "alice@example.com" "secret" 9
     (by decide)⟩

/-- C9: POST /api/bids accepts any rfpId and supplierId, including
identifiers for which no RFP or supplier row exists: the handler performs
no existence check and the connection never enables the foreign_keys
pragma, so the declared FOREIGN KEYs reject nothing; the response is 201
with the new bid identifier and the orphan bid row is stored with status
pending. -/
theorem submitBid_no_referential_check (db : DB)
    (rfpId supplierId amount : Int) (documents : String)
    (_hNoRfp : ∀ r ∈ db.rfps, (r.id : Int) ≠ rfpId)
    (_hNoSupplier : ∀ s ∈ db.suppliers, (s.id : Int) ≠ supplierId) :
    (app db (.submitBid rfpId supplierId amount documents)).1 =
      ⟨201, .json (.obj [("message", .str "Bid submitted successfully"),
        ("bidId", .num db.nextBidId)])⟩ ∧
    (⟨db.nextBidId, rfpId, supplierId, amount, documents, "pending",
        db.now⟩ : Bid) ∈
      (app db (.submitBid rfpId supplierId amount documents)).2.bids := by
  rw [app_submitBid]
  unfold submitBidHandler routeOutcome
  exact ⟨rfl, List.mem_append_right _ (List.mem_singleton.mpr rfl)⟩

/-- C9 witness: on the fresh database, which has no RFP 42 and no supplier
99, the orphan bid is accepted with 201 and bid identifier 1. -/
theorem submitBid_no_referential_check_witness :
    (∀ r ∈ emptyDB.rfps, (r.id : Int) ≠ 42) ∧
    (∀ s ∈ emptyDB.suppliers, (s.id : Int) ≠ 99) ∧
    (app emptyDB (.submitBid 42 99 10 "docs")).1 =
      ⟨201, .json (.obj [("message", .str "Bid submitted successfully"),
        ("bidId", .num 1)])⟩ ∧
    (⟨1, 42, 99, 10, "docs", "pending", 0⟩ : Bid) ∈
      (app emptyDB (.submitBid 42 99 10 "docs")).2.bids :=
  ⟨by decide, by decide,
   (submitBid_no_referential_check emptyDB 42 99 10 "docs" (by decide)
     (by decide)).1,
   (submitBid_no_referential_check emptyDB 42 99 10 "docs" (by decide)
     (by decide)).2⟩

/-- C1: the claim expects every propagated failure to be answered by the
error middleware with 500 and the JSON envelope of message and error. The
middleware at src/server.js lines 91 to 94 would indeed produce that
envelope, but it is registered BEFORE the routes, and next(error) only
reaches layers registered after the failing route, so the framework final
handler answers instead: status 500 with an HTML body, not the JSON
envelope. Shown on a duplicate registration of alice, whose storage error
is propagated with next(error). -/
theorem errorPath_misses_errorHandler :
    (app (app emptyDB (.register "Alice" "alice@example.com" "pw" 3)).2
      (.register "Alice2" "alice@example.com" "pw2" 4)).1.status = 500 ∧
    (app (app emptyDB (.register "Alice" "alice@example.com" "pw" 3)).2
      (.register "Alice2" "alice@example.com" "pw2" 4)).1.body =
      Body.html uniqueUsersEmail.message ∧
    errorHandler uniqueUsersEmail =
      ⟨500, .json (.obj [("message", .str "Internal server error"),
        ("error", .str uniqueUsersEmail.message)])⟩ ∧
    (app (app emptyDB (.register "Alice" "alice@example.com" "pw" 3)).2
      (.register "Alice2" "alice@example.com" "pw2" 4)).1.body ≠
      (errorHandler uniqueUsersEmail).body := by
  refine ⟨rfl, rfl, rfl, ?_⟩
  intro h
  have hb : (app (app emptyDB (.register "Alice" "alice@example.com" "pw" 3)).2
      (.register "Alice2" "alice@example.com" "pw2" 4)).1.body =
      Body.html uniqueUsersEmail.message := rfl
  rw [hb] at h
  simp [errorHandler] at h

end Pbackend
